import Mathlib

/-!
# Verification of the swach client (session state machine, geo math, route rendering)

Shallow embedding of the three source files of the repository:

* the sector/parameter page component (`Home` in the unnamed page file):
  React state hooks become the fields of `SessionState`; each event handler
  (`handleLogout`, `getUserLocation`, `handleSubmit`) becomes a state
  transformer.  Asynchronous handlers are split into their synchronous prefix
  (everything before the `await`) and the continuation that runs when the
  promise settles, so that interleavings with other events can be expressed by
  function composition.  JavaScript numbers on this side are modelled as `ℚ`
  (no transcendental functions are involved) and `null` as `Option`.
* `src/frontend/src/components/Map.tsx` (`MapComponent`): the turf haversine
  distance and the nearest-landfill loop are modelled over `ℝ`; the loop
  variable `shortestDistance` starts at JavaScript `Infinity`, modelled as
  `(⊤ : EReal)`.  The `useEffect` body with its `if (map.current) return`
  guard becomes `mapEffect` on an explicit `MapState`.
-/

/-! ## GeoMath: turf.distance (haversine) as used by Map.tsx -/

/-- A latitude/longitude pair (turf points are built as `[lon, lat]`;
`turf.distance` reads index 1 as latitude and index 0 as longitude). -/
structure Coordinate where
  lat : ℝ
  lon : ℝ

/-- JavaScript truncation toward zero, used by the `%` remainder operator. -/
noncomputable def rTrunc (r : ℝ) : ℝ :=
  if 0 ≤ r then ((⌊r⌋ : ℤ) : ℝ) else ((⌈r⌉ : ℤ) : ℝ)

/-- JavaScript `x % y` (remainder with the sign of the dividend). -/
noncomputable def jsMod (x y : ℝ) : ℝ := x - y * rTrunc (x / y)

/-- turf `degreesToRadians`: `(degrees % 360) * Math.PI / 180`. -/
noncomputable def degreesToRadians (d : ℝ) : ℝ := jsMod d 360 * Real.pi / 180

/-- `Math.atan2` on the reals. -/
noncomputable def atan2 (y x : ℝ) : ℝ :=
  if 0 < x then Real.arctan (y / x)
  else if x < 0 then
    (if 0 ≤ y then Real.arctan (y / x) + Real.pi else Real.arctan (y / x) - Real.pi)
  else if 0 < y then Real.pi / 2
  else if y < 0 then -(Real.pi / 2)
  else 0

/-- The haversine intermediate `a` of turf `distance`:
`sin(dLat/2)^2 + sin(dLon/2)^2 * cos(lat1) * cos(lat2)`. -/
noncomputable def haversineA (p q : Coordinate) : ℝ :=
  Real.sin (degreesToRadians (q.lat - p.lat) / 2) ^ 2 +
    Real.sin (degreesToRadians (q.lon - p.lon) / 2) ^ 2 *
      Real.cos (degreesToRadians p.lat) * Real.cos (degreesToRadians q.lat)

/-- turf `distance(.., { units: 'kilometers' })`:
`radiansToLength(2 * atan2(sqrt a, sqrt (1 - a)), 'kilometers')`, the factor
for kilometers being the earth radius 6371008.8 m divided by 1000. -/
noncomputable def distanceKm (p q : Coordinate) : ℝ :=
  2 * atan2 (Real.sqrt (haversineA p q)) (Real.sqrt (1 - haversineA p q)) * 6371.0088

/-! ## Map.tsx: nearest-landfill loop and render instructions -/

/-- An element of the `landfills` prop of `MapComponent`. -/
structure Landfill where
  lat : ℝ
  lon : ℝ
  name : String

/-- The props of `MapComponent` (`stateCoordinates` flattened, plus `landfills`). -/
structure MapProps where
  stateName : String
  lat : ℝ
  lon : ℝ
  landfills : List Landfill

/-- One step of the `landfills.forEach` loop of Map.tsx lines 58-65:
`if (distance < shortestDistance) { shortestDistance = distance; nearestLandfill = landfill }`.
The accumulator carries the pair `(nearestLandfill, shortestDistance)`. -/
noncomputable def stepD {α : Type} (d : α → ℝ) (acc : Option α × EReal) (x : α) :
    Option α × EReal :=
  if ((d x : ℝ) : EReal) < acc.2 then (some x, ((d x : ℝ) : EReal)) else acc

/-- The whole loop: `nearestLandfill` starts at `landfills[0]` (undefined, i.e.
`none`, when the list is empty) and `shortestDistance` starts at `Infinity`. -/
noncomputable def scanD {α : Type} (d : α → ℝ) (l : List α) : Option α × EReal :=
  l.foldl (stepD d) (l.head?, ⊤)

/-- The distance computed inside the loop: reference point against one landfill. -/
noncomputable def turfDist (c : Coordinate) (lf : Landfill) : ℝ :=
  distanceKm c ⟨lf.lat, lf.lon⟩

/-- The nearest-landfill computation of Map.tsx lines 53-65, returning the
final `(nearestLandfill, shortestDistance)` pair. -/
noncomputable def nearestLandfillOf (c : Coordinate) (landfills : List Landfill) :
    Option Landfill × EReal :=
  scanD (fun lf => turfDist c lf) landfills

/-- Reference model of the loop result used in proofs: starting from a current
best `m`, fold the remaining candidates with a strict-improvement test. -/
noncomputable def pick {α : Type} (d : α → ℝ) : α → List α → α
  | m, [] => m
  | m, x :: xs => if d x < d m then pick d x xs else pick d m xs

/-- The instruction set the `load` handler of Map.tsx emits onto the map
surface: one marker per landfill (lngLat plus popup name), the red state
marker, the dashed line from the state center to the nearest landfill, and the
midpoint popup carrying the shortest distance. -/
structure RenderSet where
  landfillMarkers : List (ℝ × ℝ × String)
  centerMarker : ℝ × ℝ × String
  lineCoords : List (ℝ × ℝ)
  midpointPos : ℝ × ℝ
  midpointDistance : EReal

/-- The content emitted by the `load` handler as a function of the props.
When the landfill list is empty, `nearestLandfill` is undefined and the
handler aborts with a runtime type error before drawing the line; this is
modelled as `none`. -/
noncomputable def renderLoad (p : MapProps) : Option RenderSet :=
  match nearestLandfillOf ⟨p.lat, p.lon⟩ p.landfills with
  | (some nf, dist) =>
      some
        { landfillMarkers := p.landfills.map (fun lf => (lf.lon, lf.lat, lf.name))
          centerMarker := (p.lon, p.lat, p.stateName)
          lineCoords := [(p.lon, p.lat), (nf.lon, nf.lat)]
          midpointPos := ((p.lon + nf.lon) / 2, (p.lat + nf.lat) / 2)
          midpointDistance := dist }
  | (none, _) => none

/-- The mutable ref `map.current` of `MapComponent`: `none` before the map is
created; once created it records the instruction set the load handler emitted. -/
structure MapState where
  mapCurrent : Option (Option RenderSet)

/-- The `useEffect` body of Map.tsx lines 23-104: `if (map.current) return`
(the early-exit guard), otherwise create the map and register the load handler
that emits `renderLoad` of the current props. -/
noncomputable def mapEffect (p : MapProps) (s : MapState) : MapState :=
  match s.mapCurrent with
  | some _ => s
  | none => ⟨some (renderLoad p)⟩

/-! ## Session page: state hooks and event handlers -/

/-- `waste_composition` block of `EnrichedData`. -/
structure WasteComposition where
  organic : String
  plastic : String
  paper : String
  metal : String
  glass : String
  other : String
  deriving DecidableEq

/-- `waste_management_methods` block of `EnrichedData`. -/
structure WasteManagementMethods where
  landfill : String
  recycling : String
  composting : String
  incineration : String
  deriving DecidableEq

/-- An entry of `coordinates.landfills` in `EnrichedData`. -/
structure LandfillInfo where
  lat : ℚ
  lon : ℚ
  name : String
  distance_to_landfill_from_sector : Option String
  deriving DecidableEq

/-- `coordinates` block of `EnrichedData`. -/
structure CoordinatesBlock where
  state_lat : ℚ
  state_lon : ℚ
  landfills : List LandfillInfo
  deriving DecidableEq

/-- The `EnrichedData` interface of the page component. -/
structure EnrichedData where
  sector : String
  total_waste_generated : String
  waste_composition : WasteComposition
  recycling_rate : String
  waste_management_methods : WasteManagementMethods
  key_challenges : List String
  initiatives : List String
  data_year : String
  condition_of_roads_to_landfills : String
  coordinates : CoordinatesBlock
  deriving DecidableEq

/-- The `RouteDetail` interface (`Route`, `Closeness Coefficient`, `Ranking`). -/
structure RouteDetail where
  route : String
  closenessCoefficient : ℚ
  ranking : ℚ
  deriving DecidableEq

/-- The React state hooks of the `Home` component, one field per `useState`.
`userLocation` is the pair `{latitude, longitude}`, each component nullable. -/
structure SessionState where
  user : Option String
  phoneNo : String
  sector : String
  enrichedData : Option EnrichedData
  routeDetails : Option (List RouteDetail)
  isThereData : Bool
  loading : Bool
  loginError : Option String
  logoutError : Option String
  isInformed : Bool
  isInputStage : Bool
  userLocation : Option ℚ × Option ℚ
  locationError : Option String
  collectionEfficiency : ℚ
  mileage : ℚ
  petrolLeft : ℚ
  deriving DecidableEq

/-- `handleLogout`: the four `set` calls run before `await auth.signOut()`;
on success the `onAuthStateChanged` subscription sets `user` to `null`,
on failure `logoutError` is set instead. -/
def handleLogout (signOutOk : Bool) (s : SessionState) : SessionState :=
  let s1 := { s with isThereData := false, enrichedData := none,
                     isInformed := false, isInputStage := false }
  if signOutOk then { s1 with user := none }
  else { s1 with logoutError := some "Failed to log out. Please try again." }

/-- `getUserLocation` when geolocation is available: `setLoading(true)` runs
before `getCurrentPosition` is issued. -/
def locRequestStart (s : SessionState) : SessionState := { s with loading := true }

/-- The success callback of `getCurrentPosition`. -/
def locSuccess (la lo : ℚ) (s : SessionState) : SessionState :=
  { s with userLocation := (some la, some lo), locationError := none, loading := false }

/-- The error callback of `getCurrentPosition`: note that it resets
`userLocation` to `{latitude: null, longitude: null}`. -/
def locFailure (s : SessionState) : SessionState :=
  { s with locationError := some "Unable to retrieve your location",
           userLocation := (none, none), loading := false }

/-- How the platform answers a `getUserLocation` call. -/
inductive GeoOutcome where
  | success (la lo : ℚ)
  | failure
  | unsupported

/-- `getUserLocation` end to end: the unsupported branch only sets
`locationError`; the other two branches run the request and then the
corresponding callback. -/
def getUserLocation (o : GeoOutcome) (s : SessionState) : SessionState :=
  match o with
  | .success la lo => locSuccess la lo (locRequestStart s)
  | .failure => locFailure (locRequestStart s)
  | .unsupported =>
      { s with locationError := some "Geolocation is not supported by your browser" }

/-- The request body of `handleSubmit`. -/
structure Payload where
  sector : String
  collection_efficiency : ℚ
  mileage : ℚ
  petrol_left : ℚ
  userLocation : Option (ℚ × ℚ)
  deriving DecidableEq

/-- The `userLocation` field of the payload:
`userLocation.latitude && userLocation.longitude ? {latitude, longitude} : null`.
JavaScript truthiness makes `null` and `0` both falsy, so the coordinate is
sent only when both components are present and nonzero. -/
def payloadLocation : Option ℚ × Option ℚ → Option (ℚ × ℚ)
  | (some la, some lo) => if la ≠ 0 ∧ lo ≠ 0 then some (la, lo) else none
  | _ => none

/-- The payload assembled at the top of the `try` block of `handleSubmit`. -/
def mkPayload (s : SessionState) : Payload :=
  { sector := s.sector
    collection_efficiency := s.collectionEfficiency
    mileage := s.mileage
    petrol_left := s.petrolLeft
    userLocation := payloadLocation s.userLocation }

/-- The synchronous prefix of `handleSubmit`, up to the `await fetch`:
`setLoading(true); setLoginError(null); setLogoutError(null); setEnrichedData(null)`. -/
def submitStart (s : SessionState) : SessionState :=
  { s with loading := true, loginError := none, logoutError := none,
           enrichedData := none }

/-- The continuation of `handleSubmit` when the fetch resolves with a 2xx
response: `setEnrichedData(data.data); setRouteDetails(data.route_details);
setIsThereData(true)`, then the `finally` block sets `loading` to `false`. -/
def submitResolveOk (d : EnrichedData) (rd : List RouteDetail) (s : SessionState) :
    SessionState :=
  { s with enrichedData := some d, routeDetails := some rd, isThereData := true,
           loading := false }

/-- The continuation of `handleSubmit` when the fetch rejects or the response
is non-2xx: the `catch` block sets `loginError`, the `finally` block clears
`loading`. -/
def submitResolveErr (s : SessionState) : SessionState :=
  { s with loginError :=
             some "An error occurred while fetching enriched data. Please try again.",
           loading := false }

/-- How the backend call of one submission settles. -/
inductive SubmitOutcome where
  | ok (d : EnrichedData) (rd : List RouteDetail)
  | err

/-- `handleSubmit` end to end, with no other event interleaved between the
start of the handler and the settling of the fetch. -/
def handleSubmit (o : SubmitOutcome) (s : SessionState) : SessionState :=
  match o with
  | .ok d rd => submitResolveOk d rd (submitStart s)
  | .err => submitResolveErr (submitStart s)

/-- `handleInform`: validation requires at least one of phone number and
sector to be non-empty; on success both stage flags are set. -/
def handleInform (s : SessionState) : SessionState :=
  let s1 := { s with loading := true, loginError := none, logoutError := none }
  if s1.phoneNo = "" ∧ s1.sector = "" then
    { s1 with loginError := some "Please enter either a phone number or select a sector",
              loading := false }
  else { s1 with isInformed := true, isInputStage := true, loading := false }

/-! ## Concrete sample data used by the counterexamples -/

/-- A concrete `EnrichedData` value as the backend would return it. -/
def sampleEnriched : EnrichedData :=
  { sector := "Sector 5"
    total_waste_generated := "120 tons per day"
    waste_composition :=
      { organic := "50", plastic := "20", paper := "10",
        metal := "5", glass := "5", other := "10" }
    recycling_rate := "22"
    waste_management_methods :=
      { landfill := "60", recycling := "20", composting := "15", incineration := "5" }
    key_challenges := ["segregation at source"]
    initiatives := ["door to door collection"]
    data_year := "2023"
    condition_of_roads_to_landfills := "fair"
    coordinates :=
      { state_lat := 30.73, state_lon := 76.77,
        landfills := [⟨30.74, 76.78, "Landfill A", none⟩] } }

/-- A concrete backend route detail. -/
def sampleRoute : RouteDetail := ⟨"Route 1", 0.87, 1⟩

/-- A session in the data-loaded stage: signed in, informed, parameters
entered, device location acquired, enrichment data displayed. -/
def sampleState : SessionState :=
  { user := some "user-1"
    phoneNo := "9876543210"
    sector := "Sector 5"
    enrichedData := some sampleEnriched
    routeDetails := some [sampleRoute]
    isThereData := true
    loading := false
    loginError := none
    logoutError := none
    isInformed := true
    isInputStage := true
    userLocation := (some 30.7333, some 76.7794)
    locationError := none
    collectionEfficiency := 90
    mileage := 12
    petrolLeft := 40 }

/-- `sampleState` with a device location on the equator (latitude zero). -/
def zeroLatState : SessionState :=
  { sampleState with userLocation := (some 0, some 76.7794) }

/-! ## Helper lemmas about the geo math -/

theorem rTrunc_zero : rTrunc 0 = 0 := by
  simp [rTrunc]

theorem rTrunc_neg (r : ℝ) : rTrunc (-r) = -rTrunc r := by
  unfold rTrunc
  rcases lt_trichotomy r 0 with h | h | h
  · rw [if_neg (not_le.mpr h), if_pos (by linarith : (0 : ℝ) ≤ -r), Int.floor_neg]
    push_cast
    ring
  · simp [h]
  · rw [if_pos h.le, if_neg (by linarith : ¬ (0 : ℝ) ≤ -r), Int.ceil_neg]
    push_cast
    ring

theorem jsMod_zero (y : ℝ) : jsMod 0 y = 0 := by
  simp [jsMod, rTrunc_zero]

theorem jsMod_neg (x y : ℝ) : jsMod (-x) y = -jsMod x y := by
  unfold jsMod
  rw [neg_div, rTrunc_neg]
  ring

theorem degreesToRadians_zero : degreesToRadians 0 = 0 := by
  simp [degreesToRadians, jsMod_zero]

theorem degreesToRadians_neg (x : ℝ) : degreesToRadians (-x) = -degreesToRadians x := by
  unfold degreesToRadians
  rw [jsMod_neg]
  ring

theorem haversineA_self (c : Coordinate) : haversineA c c = 0 := by
  unfold haversineA
  rw [sub_self, sub_self, degreesToRadians_zero]
  simp

theorem haversineA_symm (p q : Coordinate) : haversineA p q = haversineA q p := by
  unfold haversineA
  rw [show q.lat - p.lat = -(p.lat - q.lat) by ring,
      show q.lon - p.lon = -(p.lon - q.lon) by ring,
      degreesToRadians_neg, degreesToRadians_neg]
  simp only [neg_div, Real.sin_neg, neg_sq]
  ring

theorem distanceKm_self (c : Coordinate) : distanceKm c c = 0 := by
  unfold distanceKm
  rw [haversineA_self]
  simp [atan2, Real.sqrt_one, zero_lt_one]

theorem distanceKm_comm (p q : Coordinate) : distanceKm p q = distanceKm q p := by
  unfold distanceKm
  rw [haversineA_symm]

/-! ## Helper lemmas about the nearest-landfill loop -/

theorem pick_le {α : Type} (d : α → ℝ) (m : α) (l : List α) :
    ∀ y ∈ m :: l, d (pick d m l) ≤ d y := by
  induction l generalizing m with
  | nil =>
    intro y hy
    rw [List.mem_singleton] at hy
    subst hy
    simp [pick]
  | cons x xs ih =>
    intro y hy
    by_cases h : d x < d m
    · simp only [pick, if_pos h]
      rcases List.mem_cons.mp hy with h1 | hy2
      · rw [h1]
        exact le_of_lt (lt_of_le_of_lt (ih x x (List.mem_cons_self x xs)) h)
      · exact ih x y hy2
    · simp only [pick, if_neg h]
      rcases List.mem_cons.mp hy with h1 | hy2
      · rw [h1]
        exact ih m m (List.mem_cons_self m xs)
      · rcases List.mem_cons.mp hy2 with h2 | hy3
        · rw [h2]
          exact le_trans (ih m m (List.mem_cons_self m xs)) (not_lt.mp h)
        · exact ih m y (List.mem_cons_of_mem m hy3)

theorem pick_split {α : Type} (d : α → ℝ) (m : α) (l : List α) :
    ∃ l₁ l₂, m :: l = l₁ ++ pick d m l :: l₂ ∧ ∀ y ∈ l₁, d (pick d m l) < d y := by
  induction l generalizing m with
  | nil => exact ⟨[], [], by simp [pick], by simp⟩
  | cons x xs ih =>
    by_cases h : d x < d m
    · simp only [pick, if_pos h]
      obtain ⟨l₁, l₂, he, hlt⟩ := ih x
      refine ⟨m :: l₁, l₂, by rw [List.cons_append, ← he], ?_⟩
      intro y hy
      rcases List.mem_cons.mp hy with rfl | hy2
      · exact lt_of_le_of_lt (pick_le d x xs x (List.mem_cons_self x xs)) h
      · exact hlt y hy2
    · simp only [pick, if_neg h]
      obtain ⟨l₁, l₂, he, hlt⟩ := ih m
      cases l₁ with
      | nil =>
        simp only [List.nil_append] at he
        have hm : m = pick d m xs := (List.cons.inj he).1
        exact ⟨[], x :: xs, by rw [List.nil_append, ← hm], by simp⟩
      | cons a t =>
        rw [List.cons_append] at he
        have ha : m = a := (List.cons.inj he).1
        have ht : xs = t ++ pick d m xs :: l₂ := (List.cons.inj he).2
        have hm : d (pick d m xs) < d m := by
          have hx := hlt a (List.mem_cons_self a t)
          rw [← ha] at hx
          exact hx
        refine ⟨m :: x :: t, l₂, by rw [List.cons_append, List.cons_append, ← ht], ?_⟩
        intro y hy
        rcases List.mem_cons.mp hy with h1 | hy2
        · rw [h1]
          exact hm
        · rcases List.mem_cons.mp hy2 with h2 | hy3
          · rw [h2]
            exact lt_of_lt_of_le hm (not_lt.mp h)
          · exact hlt y (List.mem_cons_of_mem a hy3)

theorem foldl_stepD {α : Type} (d : α → ℝ) (l : List α) (m : α) :
    l.foldl (stepD d) (some m, ((d m : ℝ) : EReal)) =
      (some (pick d m l), ((d (pick d m l) : ℝ) : EReal)) := by
  induction l generalizing m with
  | nil => simp [pick]
  | cons x xs ih =>
    rw [List.foldl_cons]
    by_cases h : d x < d m
    · have hs : stepD d (some m, ((d m : ℝ) : EReal)) x = (some x, ((d x : ℝ) : EReal)) := by
        simp [stepD, EReal.coe_lt_coe_iff, h]
      rw [hs, ih]
      simp only [pick, if_pos h]
    · have hs : stepD d (some m, ((d m : ℝ) : EReal)) x = (some m, ((d m : ℝ) : EReal)) := by
        simp [stepD, EReal.coe_lt_coe_iff, h]
      rw [hs, ih]
      simp only [pick, if_neg h]

theorem scanD_cons {α : Type} (d : α → ℝ) (x : α) (xs : List α) :
    scanD d (x :: xs) =
      (some (pick d x xs), ((d (pick d x xs) : ℝ) : EReal)) := by
  unfold scanD
  rw [List.head?_cons, List.foldl_cons]
  have hs : stepD d (some x, (⊤ : EReal)) x = (some x, ((d x : ℝ) : EReal)) := by
    simp [stepD, EReal.coe_lt_top]
  rw [hs, foldl_stepD]

theorem nearest_single (c : Coordinate) (lf : Landfill) :
    nearestLandfillOf c [lf] = (some lf, ((turfDist c lf : ℝ) : EReal)) := by
  have h := scanD_cons (fun x => turfDist c x) lf []
  simpa [nearestLandfillOf, pick] using h

/-! ## Claim C10: distance is zero on the diagonal and symmetric -/

/-- Claim C10: for every pair of coordinates `a`, `b`, the great-circle
distance satisfies `distanceKm a a = 0` and `distanceKm a b = distanceKm b a`;
in particular both hold within the 1e-6 km tolerance the specification asks
for (the real-number model satisfies them exactly). -/
theorem distanceKm_zero_and_symm (a b : Coordinate) :
    distanceKm a a = 0 ∧ distanceKm a b = distanceKm b a ∧
    |distanceKm a a| ≤ 1e-6 ∧ |distanceKm a b - distanceKm b a| ≤ 1e-6 := by
  refine ⟨distanceKm_self a, distanceKm_comm a b, ?_, ?_⟩
  · rw [distanceKm_self, abs_zero]
    norm_num
  · rw [distanceKm_comm, sub_self, abs_zero]
    norm_num

/-! ## Claim C5: the loop returns the first candidate of minimal distance -/

/-- Claim C5: for every reference coordinate and nonempty candidate list the
nearest-landfill loop returns a candidate of the list whose distance to the
reference is minimal over all candidates, together with that distance, and
the returned candidate is the first one attaining the minimum in input order
(every candidate strictly before it has strictly larger distance).  The loop
is a pure function of its inputs, hence deterministic across repeated calls. -/
theorem nearest_first_min (c : Coordinate) (l : List Landfill) (h : l ≠ []) :
    ∃ nf l₁ l₂,
      nearestLandfillOf c l = (some nf, ((turfDist c nf : ℝ) : EReal)) ∧
      l = l₁ ++ nf :: l₂ ∧
      (∀ y ∈ l, turfDist c nf ≤ turfDist c y) ∧
      (∀ y ∈ l₁, turfDist c nf < turfDist c y) := by
  cases l with
  | nil => exact absurd rfl h
  | cons x xs =>
    obtain ⟨l₁, l₂, he, hlt⟩ := pick_split (fun lf => turfDist c lf) x xs
    exact ⟨pick (fun lf => turfDist c lf) x xs, l₁, l₂,
      scanD_cons (fun lf => turfDist c lf) x xs, he,
      pick_le (fun lf => turfDist c lf) x xs, hlt⟩

/-- Witness for claim C5 at a concrete input: one landfill near Chandigarh. -/
theorem nearest_first_min_witness :
    (([⟨30.74, 76.78, "Landfill A"⟩] : List Landfill) ≠ []) ∧
    (∃ nf l₁ l₂,
      nearestLandfillOf ⟨30.73, 76.77⟩ [⟨30.74, 76.78, "Landfill A"⟩] =
        (some nf, ((turfDist ⟨30.73, 76.77⟩ nf : ℝ) : EReal)) ∧
      ([⟨30.74, 76.78, "Landfill A"⟩] : List Landfill) = l₁ ++ nf :: l₂ ∧
      (∀ y ∈ ([⟨30.74, 76.78, "Landfill A"⟩] : List Landfill),
        turfDist ⟨30.73, 76.77⟩ nf ≤ turfDist ⟨30.73, 76.77⟩ y) ∧
      (∀ y ∈ l₁, turfDist ⟨30.73, 76.77⟩ nf < turfDist ⟨30.73, 76.77⟩ y)) :=
  ⟨List.cons_ne_nil _ _,
    nearest_first_min ⟨30.73, 76.77⟩ [⟨30.74, 76.78, "Landfill A"⟩]
      (List.cons_ne_nil _ _)⟩

/-! ## Claim C4: behaviour on the empty candidate list -/

/-- Counterexample to claim C4 as stated: on the empty candidate list the
computation does not fail with a classified EmptyCandidateSet error (no such
error exists in the code); it silently yields an absent (`undefined`)
nearest facility and an infinite shortest distance. -/
theorem nearest_empty_silent_none_cex :
    nearestLandfillOf ⟨30.73, 76.77⟩ [] = (none, ⊤) := rfl

/-- Claim C4 (amended): the nearest-facility computation performs no
emptiness check and raises no EmptyCandidateSet error; its nearest-facility
result is absent exactly when the candidate list is empty (`landfills[0]` of
an empty array), and only the later dereference of that absent value fails at
runtime. -/
theorem nearest_none_iff_empty (c : Coordinate) (l : List Landfill) :
    (nearestLandfillOf c l).1 = none ↔ l = [] := by
  cases l with
  | nil => simp [nearestLandfillOf, scanD]
  | cons x xs =>
    rw [show nearestLandfillOf c (x :: xs) = scanD (fun lf => turfDist c lf) (x :: xs)
          from rfl,
        scanD_cons]
    simp

/-! ## Claim C1: what sign-out actually clears -/

/-- Counterexample to claim C1 as stated: from a fully loaded session,
sign-out leaves the device location, the query parameters (sector, phone
number) and the backend route details in place, so the session-scoped data is
not all empty/absent after the transition. -/
theorem signOut_not_clear_cex :
    (handleLogout true sampleState).userLocation = (some 30.7333, some 76.7794) ∧
    (handleLogout true sampleState).userLocation ≠ (none, none) ∧
    (handleLogout true sampleState).sector = "Sector 5" ∧
    (handleLogout true sampleState).phoneNo = "9876543210" ∧
    (handleLogout true sampleState).routeDetails = some [sampleRoute] := by
  refine ⟨rfl, ?_, rfl, rfl, rfl⟩
  decide

/-- Claim C1 (amended): for every session state, a successful sign-out
transitions to the unauthenticated state (`user = none`) and clears the
enrichment result (`enrichedData`), its display flag and the two stage flags,
but it leaves the query parameters (sector, phone number, collection
efficiency, mileage, petrol left), the route details, the acquired device
location and the location error untouched. -/
theorem signOut_effects (s : SessionState) :
    (handleLogout true s).user = none ∧
    (handleLogout true s).enrichedData = none ∧
    (handleLogout true s).isThereData = false ∧
    (handleLogout true s).isInformed = false ∧
    (handleLogout true s).isInputStage = false ∧
    (handleLogout true s).sector = s.sector ∧
    (handleLogout true s).phoneNo = s.phoneNo ∧
    (handleLogout true s).userLocation = s.userLocation ∧
    (handleLogout true s).routeDetails = s.routeDetails ∧
    (handleLogout true s).locationError = s.locationError ∧
    (handleLogout true s).collectionEfficiency = s.collectionEfficiency ∧
    (handleLogout true s).mileage = s.mileage ∧
    (handleLogout true s).petrolLeft = s.petrolLeft :=
  ⟨rfl, rfl, rfl, rfl, rfl, rfl, rfl, rfl, rfl, rfl, rfl, rfl, rfl⟩

/-! ## Claim C2: a fetch that resolves after sign-out -/

/-- Counterexample to claim C2 as stated: a submission starts, the user signs
out (which clears the enrichment data and resets the stage flags), and then
the pending fetch resolves successfully.  The response is applied as usual —
it repopulates the cleared enrichment data and sets the data-loaded flag even
though the session is signed out — instead of being discarded. -/
theorem stale_fetch_repopulates_cex :
    (submitResolveOk sampleEnriched [sampleRoute]
        (handleLogout true (submitStart sampleState))).enrichedData
      = some sampleEnriched ∧
    (submitResolveOk sampleEnriched [sampleRoute]
        (handleLogout true (submitStart sampleState))).isThereData = true ∧
    (submitResolveOk sampleEnriched [sampleRoute]
        (handleLogout true (submitStart sampleState))).user = none :=
  ⟨rfl, rfl, rfl⟩

/-- Claim C2 (amended): the code contains no generation or staleness check,
so for every session state a fetch response that resolves after a sign-out
reset is applied unconditionally: it repopulates the enrichment data and the
route details and re-enters the data-loaded condition while the session is
unauthenticated. -/
theorem stale_fetch_applied (s : SessionState) (d : EnrichedData)
    (rd : List RouteDetail) :
    (submitResolveOk d rd (handleLogout true (submitStart s))).enrichedData = some d ∧
    (submitResolveOk d rd (handleLogout true (submitStart s))).routeDetails = some rd ∧
    (submitResolveOk d rd (handleLogout true (submitStart s))).isThereData = true ∧
    (submitResolveOk d rd (handleLogout true (submitStart s))).user = none :=
  ⟨rfl, rfl, rfl, rfl⟩

/-! ## Claim C3: a failed backend call and previously loaded data -/

/-- Counterexample to claim C3 as stated: from a session that already
displays enrichment data, a submission whose backend call fails ends with
`enrichedData` absent — the previously loaded data was cleared by the
synchronous prefix of `handleSubmit` and is not restored on failure, so it is
not unchanged. -/
theorem failed_submit_discards_data_cex :
    sampleState.enrichedData = some sampleEnriched ∧
    (handleSubmit .err sampleState).enrichedData = none ∧
    (handleSubmit .err sampleState).enrichedData ≠ sampleState.enrichedData :=
  ⟨rfl, rfl, fun h => Option.noConfusion h⟩

/-- Claim C3 (amended): for every session state, a failed backend call leaves
the authentication and stage flags unchanged and attaches a user-visible
error message, and it leaves the old route details and the data flag in
place; but the previously loaded enrichment data itself is cleared at
submission start, so after the failure `enrichedData` is absent rather than
unchanged. -/
theorem failed_submit_effects (s : SessionState) :
    (handleSubmit .err s).loginError =
      some "An error occurred while fetching enriched data. Please try again." ∧
    (handleSubmit .err s).enrichedData = none ∧
    (handleSubmit .err s).user = s.user ∧
    (handleSubmit .err s).isInformed = s.isInformed ∧
    (handleSubmit .err s).isInputStage = s.isInputStage ∧
    (handleSubmit .err s).routeDetails = s.routeDetails ∧
    (handleSubmit .err s).isThereData = s.isThereData ∧
    (handleSubmit .err s).loading = false :=
  ⟨rfl, rfl, rfl, rfl, rfl, rfl, rfl, rfl⟩

/-! ## Claim C6: the payload location rule -/

/-- Counterexample to claim C6 as stated: with a device-acquired coordinate
present at submission time whose latitude is zero (a valid coordinate on the
equator), the assembled payload carries no location — presence of the
coordinate alone does not decide the payload field. -/
theorem payload_zero_latitude_cex :
    zeroLatState.userLocation = (some 0, some 76.7794) ∧
    (mkPayload zeroLatState).userLocation = none := by
  refine ⟨rfl, ?_⟩
  decide

/-- Claim C6 (amended): the payload's location field equals the device
coordinate exactly when both of its components are present and nonzero
(JavaScript truthiness of `latitude && longitude`); in every other case —
either component absent or zero — the field is null.  No other rule decides
the payload's location. -/
theorem payload_location_iff (s : SessionState) (c : ℚ × ℚ) :
    (mkPayload s).userLocation = some c ↔
      (s.userLocation.1 = some c.1 ∧ s.userLocation.2 = some c.2 ∧
        c.1 ≠ 0 ∧ c.2 ≠ 0) := by
  obtain ⟨c1, c2⟩ := c
  show payloadLocation s.userLocation = some (c1, c2) ↔ _
  rcases hu : s.userLocation with ⟨u1, u2⟩
  cases u1 with
  | none => simp [payloadLocation]
  | some la =>
    cases u2 with
    | none => simp [payloadLocation]
    | some lo =>
      by_cases h : la ≠ 0 ∧ lo ≠ 0
      · rw [show payloadLocation (some la, some lo) = some (la, lo) from by
              show (if la ≠ 0 ∧ lo ≠ 0 then some (la, lo) else none) = some (la, lo)
              exact if_pos h]
        constructor
        · intro he
          obtain ⟨h1, h2⟩ := Prod.mk.injEq .. ▸ Option.some.inj he
          exact ⟨by rw [← h1], by rw [← h2], h1 ▸ h.1, h2 ▸ h.2⟩
        · rintro ⟨h1, h2, _, _⟩
          rw [Option.some.inj h1, Option.some.inj h2]
      · rw [show payloadLocation (some la, some lo) = none from by
              show (if la ≠ 0 ∧ lo ≠ 0 then some (la, lo) else none) = none
              exact if_neg h]
        constructor
        · intro he
          exact absurd he (by simp)
        · rintro ⟨h1, h2, h3, h4⟩
          refine absurd ⟨?_, ?_⟩ h
          · rw [Option.some.inj h1]
            exact h3
          · rw [Option.some.inj h2]
            exact h4

/-! ## Claim C7: a failed location request and the stored coordinate -/

/-- Counterexample to claim C7 as stated: from a session that already holds a
successfully acquired device coordinate, a location request that fails
through the geolocation error callback erases the stored coordinate (resets
it to `{latitude: null, longitude: null}`) instead of leaving it untouched. -/
theorem location_failure_erases_cex :
    sampleState.userLocation = (some 30.7333, some 76.7794) ∧
    (getUserLocation .failure sampleState).userLocation = (none, none) :=
  ⟨rfl, rfl⟩

/-- Claim C7 (amended): for every session state, a location request failing
through the geolocation error callback (permission denied / position
unavailable / timeout) sets the classified error message and erases the
stored device coordinate, resetting it to absent; only the
unsupported-platform failure leaves the prior coordinate untouched while
setting its own message. -/
theorem location_failure_effects (s : SessionState) :
    (getUserLocation .failure s).userLocation = (none, none) ∧
    (getUserLocation .failure s).locationError =
      some "Unable to retrieve your location" ∧
    (getUserLocation .failure s).loading = false ∧
    (getUserLocation .unsupported s).userLocation = s.userLocation ∧
    (getUserLocation .unsupported s).locationError =
      some "Geolocation is not supported by your browser" :=
  ⟨rfl, rfl, rfl, rfl, rfl⟩

/-! ## Claims C8 and C9: the map effect, staleness and idempotence -/

/-- Evaluation of the load-handler output on props with a single landfill. -/
theorem renderLoad_one (nm : String) (la lo : ℝ) (f : Landfill) :
    renderLoad ⟨nm, la, lo, [f]⟩ =
      some
        { landfillMarkers := [(f.lon, f.lat, f.name)]
          centerMarker := (lo, la, nm)
          lineCoords := [(lo, la), (f.lon, f.lat)]
          midpointPos := ((lo + f.lon) / 2, (la + f.lat) / 2)
          midpointDistance := ((turfDist ⟨la, lo⟩ f : ℝ) : EReal) } := by
  unfold renderLoad
  rw [nearest_single]
  rfl

/-- Counterexample to claim C8 as stated: after the map has been mounted with
a first set of inputs, running the effect again with a changed reference
point and facility set leaves the surface exactly as the first inputs
rendered it (the early-exit guard skips recomputation), and that stale
content differs from what the new inputs would render. -/
theorem map_stale_props_cex :
    (mapEffect ⟨"Sector 9", 30.80, 76.90, [⟨30.81, 76.91, "Landfill B"⟩]⟩
        (mapEffect ⟨"Sector 5", 30.73, 76.77, [⟨30.74, 76.78, "Landfill A"⟩]⟩
          ⟨none⟩)).mapCurrent
      = some (renderLoad ⟨"Sector 5", 30.73, 76.77, [⟨30.74, 76.78, "Landfill A"⟩]⟩) ∧
    renderLoad ⟨"Sector 5", 30.73, 76.77, [⟨30.74, 76.78, "Landfill A"⟩]⟩ ≠
      renderLoad ⟨"Sector 9", 30.80, 76.90, [⟨30.81, 76.91, "Landfill B"⟩]⟩ := by
  constructor
  · rfl
  · intro h
    rw [renderLoad_one, renderLoad_one] at h
    have h2 := congrArg (fun r : RenderSet => r.centerMarker.2.2) (Option.some.inj h)
    exact absurd h2 (by decide)

/-- Claim C8 (amended): within a single mount of the map component, the
render instructions are computed exactly once, from the props present at
first initialization; a later effect run with changed reference point or
facility set is a guarded no-op, so the surface keeps the nearest-facility
result of the original inputs (recomputation happens only on a fresh,
uninitialized mount). -/
theorem map_first_props_persist (p q : MapProps) :
    (mapEffect q (mapEffect p ⟨none⟩)).mapCurrent = some (renderLoad p) := rfl

/-- Claim C9: the emitted instruction set is a deterministic pure function of
the props (`renderLoad`), and re-running the effect with the same props is
idempotent: the second run changes nothing, so after two renders with
identical inputs the surface holds exactly the instruction set of one render,
with no hidden mutable state influencing the content. -/
theorem map_effect_idempotent (p : MapProps) (s : MapState) :
    mapEffect p (mapEffect p s) = mapEffect p s ∧
    (mapEffect p ⟨none⟩).mapCurrent = some (renderLoad p) := by
  constructor
  · cases s with
    | mk mc =>
      cases mc with
      | none => rfl
      | some r => rfl
  · rfl
